import Mathlib

/-!
Formal model of the hna-tracker scraping core.

The definitions below are a shallow embedding of the table-extraction and
field-decoding code in src/scraper.ts, src/playerStatsScraper.ts and
src/goalieStatsScraper.ts.  HTML documents are modelled at the granularity
the scrapers observe them through cheerio queries: a table is the list of
its tbody rows (plus the data the selection strategy consults), a row is a
list of cells, and a cell records the results of the specific sub-element
queries the decoder performs on it together with its whole text content.
JavaScript string and number primitives (trim, toLowerCase, includes,
parseInt with radix 10, parseFloat) are modelled as executable Lean
functions on character lists; fractional values are modelled as rationals,
which is exact for the decimal literals these pages carry.
-/

/-! ### JavaScript string and number primitives -/

/-- Model of JavaScript String.prototype.trim on the characters of a
string: drop leading and trailing whitespace. -/
def jsTrim (s : String) : String :=
  String.mk (((s.toList.dropWhile Char.isWhitespace).reverse.dropWhile
    Char.isWhitespace).reverse)

/-- Model of JavaScript String.prototype.toLowerCase (ASCII case fold,
which covers every header label the scrapers compare against). -/
def jsToLower (s : String) : String :=
  String.mk (s.toList.map Char.toLower)

/-- Substring occurrence test on character lists: the second list occurs
contiguously somewhere in the first. -/
def containsSub : List Char → List Char → Bool
  | hay, sub =>
    match hay with
    | [] => sub.isEmpty
    | c :: t => sub.isPrefixOf (c :: t) || containsSub t sub

/-- Model of JavaScript String.prototype.includes: substring test. -/
def jsIncludes (s sub : String) : Bool :=
  containsSub s.toList sub.toList

/-- Numeric value of a digit string (most significant digit first). -/
def digitsVal (ds : List Char) : Nat :=
  ds.foldl (fun a c => a * 10 + (c.toNat - '0'.toNat)) 0

/-- Longest leading run of decimal digits, interpreted base 10; none when
the run is empty.  This is the digit-consuming core of parseInt. -/
def leadingNat (cs : List Char) : Option Nat :=
  let ds := cs.takeWhile Char.isDigit
  if ds.isEmpty then none else some (digitsVal ds)

/-- Model of JavaScript parseInt(s, 10): skip leading whitespace, an
optional sign, then the longest run of decimal digits; NaN (none) when no
digit follows the optional sign. -/
def jsParseInt (s : String) : Option Int :=
  let cs := s.toList.dropWhile Char.isWhitespace
  match cs with
  | '-' :: r => (leadingNat r).map (fun n => -(n : Int))
  | '+' :: r => (leadingNat r).map (fun n => (n : Int))
  | _ => (leadingNat cs).map (fun n => (n : Int))

/-- Model of JavaScript parseFloat restricted to plain decimal notation
(optional sign, integer digits, optional fraction) — the fragment the
scraped pages use.  NaN (none) when no digit is found. -/
def jsParseFloat (s : String) : Option ℚ :=
  let cs := s.toList.dropWhile Char.isWhitespace
  let sgn : Int := match cs with
    | '-' :: _ => -1
    | _ => 1
  let cs1 := match cs with
    | '-' :: r => r
    | '+' :: r => r
    | _ => cs
  let ip := cs1.takeWhile Char.isDigit
  let rest := cs1.drop ip.length
  match rest with
  | '.' :: r2 =>
    let fp := r2.takeWhile Char.isDigit
    if ip.isEmpty && fp.isEmpty then none
    else some (mkRat (sgn * (digitsVal ip * 10 ^ fp.length + digitsVal fp : Nat)) (10 ^ fp.length))
  | _ => if ip.isEmpty then none else some (mkRat (sgn * (digitsVal ip : Nat)) 1)

/-- Append a decoded record to the accumulator when the row produced one;
this is the push step shared by the each-loops below. -/
def pushOpt {β : Type _} (acc : List β) : Option β → List β
  | some b => acc ++ [b]
  | none => acc

/-- Model of the call pattern parseInt(text.trim(), 10) || 0 used for every
integer field: trim, parse base 10, and coerce NaN (and ±0) to 0. -/
def toIntOrZero (s : String) : Int :=
  (jsParseInt (jsTrim s)).getD 0

/-- Model of the call pattern parseFloat(text.trim()) || 0 used for every
fractional field. -/
def toFloatOrZero (s : String) : ℚ :=
  (jsParseFloat (jsTrim s)).getD 0

/-! ### Standings model (src/scraper.ts) -/

/-- The fixed division-name sequence DIVISION_NAMES from src/types.ts. -/
def DIVISION_NAMES : List String :=
  ["1-BRODEUR", "2-MANNO", "3-STEVENS NORTH", "3-STEVENS SOUTH"]

/-- An anchor element inside a standings team cell, as the scraper queries
it: the text of a nested span with class d-sm-inline (full name) when
present, the text of a nested span with class d-sm-none (abbreviation)
when present, and the anchor's whole text content. -/
structure TeamLink where
  fullNameSpanText : Option String
  abbrSpanText : Option String
  text : String
deriving Repr, DecidableEq

/-- A cell of a standings table row: an optional anchor element and the
cell's whole text content. -/
structure StandingsCell where
  link : Option TeamLink
  text : String
deriving Repr, DecidableEq

/-- The i-th td of a row; an out-of-range index models cheerio's empty
selection, whose text() is the empty string. -/
def cellS (cells : List StandingsCell) (i : Nat) : StandingsCell :=
  (cells.get? i).getD ⟨none, ""⟩

/-- Text of the i-th td of a row (empty for an out-of-range index). -/
def cellTextS (cells : List StandingsCell) (i : Nat) : String :=
  (cellS cells i).text

/-- Team-name extraction from the first cell (src/scraper.ts lines 64-81):
prefer the d-sm-inline span inside the link, then the link text, then the
whole cell text, each trimmed. -/
def teamNameOfCell (c : StandingsCell) : String :=
  match c.link with
  | some l =>
    match l.fullNameSpanText with
    | some s => jsTrim s
    | none => jsTrim l.text
  | none => jsTrim c.text

/-- A decoded standings record (TeamStanding in src/types.ts). -/
structure TeamStanding where
  team : String
  gp : Int
  w : Int
  l : Int
  t : Int
  otl : Int
  pts : Int
  wpct : ℚ
  position : Nat
deriving Repr, DecidableEq

/-- The record literal pushed for a kept standings row (src/scraper.ts
lines 88-98), with the 1-indexed position passed in by the caller. -/
def decodeStandingsRecord (pos : Nat) (cells : List StandingsCell) : TeamStanding :=
  { team := teamNameOfCell (cellS cells 0)
    gp := toIntOrZero (cellTextS cells 1)
    w := toIntOrZero (cellTextS cells 2)
    l := toIntOrZero (cellTextS cells 3)
    t := toIntOrZero (cellTextS cells 4)
    otl := toIntOrZero (cellTextS cells 5)
    pts := toIntOrZero (cellTextS cells 6)
    wpct := toFloatOrZero (cellTextS cells 7)
    position := pos }

/-- One iteration of the rows.each loop of src/scraper.ts lines 59-100:
drop the row when it has fewer than 8 cells or its derived team name is
empty or the header label, else append the decoded record with position
teams.length + 1. -/
def standingsStep (teams : List TeamStanding) (cells : List StandingsCell) :
    List TeamStanding :=
  if 8 ≤ cells.length then
    let teamName := teamNameOfCell (cellS cells 0)
    if teamName = "" ∨ jsToLower teamName = "team" then teams
    else teams ++ [decodeStandingsRecord (teams.length + 1) cells]
  else teams

/-- The whole rows.each loop over a table's tbody rows. -/
def processStandingsRows (rows : List (List StandingsCell)) : List TeamStanding :=
  rows.foldl standingsStep []

/-- A standings-page table, observed as the list of its tbody rows. -/
structure HtmlTable where
  tbodyRows : List (List StandingsCell)
deriving Repr, DecidableEq

/-- Qualification test of src/scraper.ts lines 30-46: the table has
standings data when some tbody row has at least 8 td cells. -/
def hasStandingsData (tb : HtmlTable) : Bool :=
  tb.tbodyRows.any (fun r => 8 ≤ r.length)

/-- Table-to-division assignment of src/scraper.ts lines 52-105: filter
the document's tables by the qualification test, then give the i-th
division name the decoded rows of the i-th qualifying table, or an empty
list when there is none. -/
def scrapeStandingsDivisions (tables : List HtmlTable) :
    List (String × List TeamStanding) :=
  let standingsTables := tables.filter hasStandingsData
  DIVISION_NAMES.enum.map (fun p =>
    (p.2, match standingsTables[p.1]? with
          | some tb => processStandingsRows tb.tbodyRows
          | none => []))

/-- Plain text cell with no anchor. -/
def sCell (s : String) : StandingsCell := ⟨none, s⟩

/-! ### Player-stats model (src/playerStatsScraper.ts) -/

/-- A cell of a player-stats row: the text of a nested anchor when one is
present, and the cell's whole text content. -/
structure PlayerCell where
  linkText : Option String
  text : String
deriving Repr, DecidableEq

/-- The i-th td of a player row (empty selection when out of range). -/
def cellP (cells : List PlayerCell) (i : Nat) : PlayerCell :=
  (cells.get? i).getD ⟨none, ""⟩

/-- Text of the i-th td of a player row. -/
def cellTextP (cells : List PlayerCell) (i : Nat) : String :=
  (cellP cells i).text

/-- Player-name extraction (src/playerStatsScraper.ts lines 58-63): the
anchor text when an anchor exists in the second cell, else the cell text,
trimmed. -/
def playerNameOfCells (cells : List PlayerCell) : String :=
  match (cellP cells 1).linkText with
  | some s => jsTrim s
  | none => jsTrim (cellTextP cells 1)

/-- A decoded player record (PlayerStats in src/types.ts). -/
structure PlayerStats where
  rank : Nat
  name : String
  jerseyNumber : String
  position : String
  team : String
  gp : Int
  goals : Int
  assists : Int
  points : Int
  pointsPerGame : ℚ
  ppg : Int
  ppa : Int
  shg : Int
  sha : Int
  gwg : Int
  pim : Int
deriving Repr, DecidableEq

/-- The record literal pushed for a kept player row (src/playerStatsScraper.ts
lines 74-91); rank is 1 plus the row's index in the tbody row iteration. -/
def decodePlayerRecord (index : Nat) (cells : List PlayerCell) : PlayerStats :=
  { rank := index + 1
    name := playerNameOfCells cells
    jerseyNumber := jsTrim (cellTextP cells 2)
    position := jsTrim (cellTextP cells 3)
    team := jsTrim (cellTextP cells 4)
    gp := toIntOrZero (cellTextP cells 5)
    goals := toIntOrZero (cellTextP cells 6)
    assists := toIntOrZero (cellTextP cells 7)
    points := toIntOrZero (cellTextP cells 8)
    pointsPerGame := toFloatOrZero (cellTextP cells 9)
    ppg := toIntOrZero (cellTextP cells 10)
    ppa := toIntOrZero (cellTextP cells 11)
    shg := toIntOrZero (cellTextP cells 12)
    sha := toIntOrZero (cellTextP cells 13)
    gwg := toIntOrZero (cellTextP cells 14)
    pim := toIntOrZero (cellTextP cells 15) }

/-- Body of the rows.each callback (src/playerStatsScraper.ts lines 52-94):
none when the row has fewer than 16 cells or its derived name is empty or
the header label, else the decoded record. -/
def decodePlayerRow (index : Nat) (cells : List PlayerCell) : Option PlayerStats :=
  if 16 ≤ cells.length then
    let playerName := playerNameOfCells cells
    if playerName = "" ∨ jsToLower playerName = "player" ∨ playerName = "" then none
    else some (decodePlayerRecord index cells)
  else none

/-- The rows.each loop over one table's tbody rows, with the per-row index
the callback receives and an accumulator of pushed records. -/
def processPlayerRows (rows : List (List PlayerCell)) : List PlayerStats :=
  rows.enum.foldl (fun acc p => pushOpt acc (decodePlayerRow p.1 p.2)) []

/-- A table on a player-stats page: the text of its first header row
(thead tr, tr — first match) and its tbody rows. -/
structure PTable where
  headerText : String
  tbodyRows : List (List PlayerCell)
deriving Repr, DecidableEq

/-- Header heuristic of src/playerStatsScraper.ts lines 38-48: the
lowercased first header row text contains player, gp and pts. -/
def isPlayerStatsTable (tb : PTable) : Bool :=
  let h := jsToLower tb.headerText
  jsIncludes h "player" && jsIncludes h "gp" && jsIncludes h "pts"

/-- The tables.each loop of scrapeDivisionStats (src/playerStatsScraper.ts
lines 37-97): every table passing the header heuristic contributes its
processed tbody rows to the shared accumulator. -/
def scrapeDivisionStatsTables (tables : List PTable) : List PlayerStats :=
  tables.foldl (fun players tb =>
    if isPlayerStatsTable tb then players ++ processPlayerRows tb.tbodyRows
    else players) []

/-! ### Goalie-stats model (src/goalieStatsScraper.ts) -/

/-- A cell of a goalie-stats row, as the scraper queries it: the text of
the desktop name selection (span.d-none.d-sm-block a, span.d-sm-block a)
when nonempty, of the mobile name selection (span.d-sm-none a), of the
first nested span, and the cell's whole text. -/
structure GoalieCell where
  desktopNameText : Option String
  mobileNameText : Option String
  firstSpanText : Option String
  text : String
deriving Repr, DecidableEq

/-- The i-th td of a goalie row (empty selection when out of range). -/
def cellG (cells : List GoalieCell) (i : Nat) : GoalieCell :=
  (cells.get? i).getD ⟨none, none, none, ""⟩

/-- Text of the i-th td of a goalie row. -/
def cellTextG (cells : List GoalieCell) (i : Nat) : String :=
  (cellG cells i).text

/-- Goalie-name extraction (src/goalieStatsScraper.ts lines 47-60): the
desktop name selection when present, else the cell text; when that result
is empty, retry with the mobile selection, else the cell text; trimmed. -/
def goalieNameOfCells (cells : List GoalieCell) : String :=
  let c := cellG cells 1
  let n0 := match c.desktopNameText with
    | some s => jsTrim s
    | none => jsTrim c.text
  if n0 = "" then
    match c.mobileNameText with
    | some s => jsTrim s
    | none => jsTrim c.text
  else n0

/-- Team extraction (src/goalieStatsScraper.ts lines 71-77): the first
nested span's text when one exists, else the cell text, trimmed. -/
def goalieTeamOfCells (cells : List GoalieCell) : String :=
  let c := cellG cells 2
  match c.firstSpanText with
  | some s => jsTrim s
  | none => jsTrim c.text

/-- A decoded goalie record (GoalieStats in src/types.ts). -/
structure GoalieStats where
  rank : Nat
  name : String
  team : String
  gp : Int
  w : Int
  l : Int
  t : Int
  otl : Int
  so : Int
  mp : Int
  ga : Int
  gaa : ℚ
  gsaa : ℚ
  sa : Int
  sv : Int
  svPct : ℚ
  goals : Int
  assists : Int
  pim : Int
deriving Repr, DecidableEq

/-- The record literal pushed for a kept goalie row
(src/goalieStatsScraper.ts lines 85-106); rank is 1 plus the row's index
in the tbody row iteration. -/
def decodeGoalieRecord (index : Nat) (cells : List GoalieCell) : GoalieStats :=
  { rank := index + 1
    name := goalieNameOfCells cells
    team := goalieTeamOfCells cells
    gp := toIntOrZero (cellTextG cells 3)
    w := toIntOrZero (cellTextG cells 4)
    l := toIntOrZero (cellTextG cells 5)
    t := toIntOrZero (cellTextG cells 6)
    otl := toIntOrZero (cellTextG cells 7)
    so := toIntOrZero (cellTextG cells 8)
    mp := toIntOrZero (cellTextG cells 9)
    ga := toIntOrZero (cellTextG cells 10)
    gaa := toFloatOrZero (cellTextG cells 11)
    gsaa := toFloatOrZero (cellTextG cells 12)
    sa := toIntOrZero (cellTextG cells 13)
    sv := toIntOrZero (cellTextG cells 14)
    svPct := toFloatOrZero (cellTextG cells 15)
    goals := toIntOrZero (cellTextG cells 16)
    assists := toIntOrZero (cellTextG cells 17)
    pim := toIntOrZero (cellTextG cells 18) }

/-- Body of the rows.each callback (src/goalieStatsScraper.ts lines 40-109):
none when the row has fewer than 16 cells or its derived name is empty or
the header label, else the decoded record. -/
def decodeGoalieRow (index : Nat) (cells : List GoalieCell) : Option GoalieStats :=
  if 16 ≤ cells.length then
    let goalieName := goalieNameOfCells cells
    if goalieName = "" ∨ jsToLower goalieName = "goalie" ∨ goalieName = "" then none
    else some (decodeGoalieRecord index cells)
  else none

/-- The rows.each loop over the combined tbody rows of the selected
tables, with the per-row index the callback receives. -/
def processGoalieRows (rows : List (List GoalieCell)) : List GoalieStats :=
  rows.enum.foldl (fun acc p => pushOpt acc (decodeGoalieRow p.1 p.2)) []

/-- A table on a goalie-stats page: its CSS classes and its tbody rows. -/
structure GTable where
  classes : List String
  tbodyRows : List (List GoalieCell)
deriving Repr, DecidableEq

/-- Table selection and row extraction of scrapeDivisionGoalieStats
(src/goalieStatsScraper.ts lines 33-110): select table.leaders, and when
the selection is nonempty process all tbody rows of the selected tables. -/
def goalieStatsOfTables (tables : List GTable) : List GoalieStats :=
  let sel := tables.filter (fun tb => tb.classes.contains "leaders")
  if 0 < sel.length then processGoalieRows (sel.flatMap (fun tb => tb.tbodyRows))
  else []

/-! ### Division orchestrators -/

/-- Outcome of one fetch of a division page, as the pipeline observes it:
a parsed document on a 2xx response, a response with ok false, or a
rejected fetch. -/
inductive FetchOutcome (α : Type) where
  | ok (doc : α)
  | httpError (status : Nat) (statusText : String)
  | networkError (msg : String)

/-- Per-division pipeline of scrapeDivisionGoalieStats: a non-ok response
raises an error (src/goalieStatsScraper.ts lines 20-27); otherwise the
document's tables are scraped. -/
def scrapeDivisionGoalieStats (fetch : String → FetchOutcome (List GTable))
    (divisionName : String) : Except String (List GoalieStats) :=
  match fetch divisionName with
  | .ok tables => .ok (goalieStatsOfTables tables)
  | .httpError status statusText =>
    .error ("Failed to fetch goalie stats for " ++ divisionName ++ ": "
      ++ toString status ++ " " ++ statusText)
  | .networkError msg => .error msg

/-- Per-division pipeline of scrapeDivisionStats: a non-ok response raises
an error (src/playerStatsScraper.ts lines 24-30); otherwise the document's
tables are scraped. -/
def scrapeDivisionStats (fetch : String → FetchOutcome (List PTable))
    (divisionName : String) : Except String (List PlayerStats) :=
  match fetch divisionName with
  | .ok tables => .ok (scrapeDivisionStatsTables tables)
  | .httpError status statusText =>
    .error ("Failed to fetch stats for " ++ divisionName ++ ": "
      ++ toString status ++ " " ++ statusText)
  | .networkError msg => .error msg

/-- Orchestrator loop of scrapeGoalieStats (src/goalieStatsScraper.ts
lines 121-139): every division is processed in order inside a try/catch;
an error is downgraded to an empty record list for that division only. -/
def scrapeGoalieStats (fetch : String → FetchOutcome (List GTable)) :
    List (String × List GoalieStats) :=
  DIVISION_NAMES.foldl (fun acc divisionName =>
    acc ++ [(divisionName,
      match scrapeDivisionGoalieStats fetch divisionName with
      | .ok stats => stats
      | .error _ => [])]) []

/-- Orchestrator loop of scrapePlayerStats (src/playerStatsScraper.ts
lines 104-126), identical in shape to the goalie orchestrator. -/
def scrapePlayerStats (fetch : String → FetchOutcome (List PTable)) :
    List (String × List PlayerStats) :=
  DIVISION_NAMES.foldl (fun acc divisionName =>
    acc ++ [(divisionName,
      match scrapeDivisionStats fetch divisionName with
      | .ok stats => stats
      | .error _ => [])]) []

/-! ### Concrete inputs used in witnesses and counterexamples -/

/-- Plain goalie cell with no nested spans. -/
def gCell (s : String) : GoalieCell := ⟨none, none, none, s⟩

/-- Plain player cell with no anchor. -/
def pCell (s : String) : PlayerCell := ⟨none, s⟩

/-- A 19-cell goalie header row leaking into the tbody region; its derived
name is the header label, so the decoder drops it. -/
def headerGoalieRow : List GoalieCell :=
  ["", "Goalie", "Team", "GP", "W", "L", "T", "OTL", "SO", "MP", "GA",
   "GAA", "GSAA", "SA", "SV", "SV%", "G", "A", "PIM"].map gCell

/-- A valid 19-cell goalie data row. -/
def smithGoalieRow : List GoalieCell :=
  ["", "Smith", "STL", "10", "7", "2", "1", "0", "1", "450", "20", "2.67",
   "1.5", "200", "180", ".900", "0", "0", "2"].map gCell

/-- A valid 16-cell player data row. -/
def jonesPlayerRow : List PlayerCell :=
  ["1", "Jones", "12", "F", "STL", "10", "5", "7", "12", "1.2", "1", "2",
   "0", "0", "1", "4"].map pCell

/-- A standings row with 8 cells. -/
def exRow8 : List StandingsCell :=
  ["A", "1", "2", "3", "4", "5", "6", ".500"].map sCell

/-- A standings document with one non-qualifying and two qualifying
tables. -/
def exStandingsTables : List HtmlTable :=
  [⟨[["only", "three", "cells"].map sCell]⟩, ⟨[exRow8]⟩, ⟨[exRow8]⟩]

/-- A goalie fetch whose second division responds with HTTP 500. -/
def exFetchG : String → FetchOutcome (List GTable) := fun name =>
  if name = "2-MANNO" then .httpError 500 "Internal Server Error" else .ok []

/-- A player fetch whose fourth division rejects with a network error. -/
def exFetchP : String → FetchOutcome (List PTable) := fun name =>
  if name = "3-STEVENS SOUTH" then .networkError "fetch failed" else .ok []

/-! ### Helper lemmas -/

@[simp] theorem pushOpt_none {β : Type _} (acc : List β) :
    pushOpt acc none = acc := rfl

@[simp] theorem pushOpt_some {β : Type _} (acc : List β) (b : β) :
    pushOpt acc (some b) = acc ++ [b] := rfl

/-- A push-on-some loop is a filterMap. -/
theorem foldl_push_eq_filterMap {α β : Type _} (f : α → Option β)
    (l : List α) : ∀ acc : List β,
    l.foldl (fun a x => pushOpt a (f x)) acc = acc ++ l.filterMap f := by
  induction l with
  | nil => intro acc; simp
  | cons x xs ih =>
    intro acc
    cases hx : f x <;> simp [hx, ih]

/-- A push-on-test loop is a filter followed by a flatMap. -/
theorem foldl_guard_eq_flatMap {α β : Type _} (p : α → Bool) (g : α → List β)
    (l : List α) : ∀ acc : List β,
    l.foldl (fun a x => if p x then a ++ g x else a) acc
      = acc ++ (l.filter p).flatMap g := by
  induction l with
  | nil => intro acc; simp
  | cons x xs ih =>
    intro acc
    by_cases hx : p x = true <;> simp [hx, ih]

/-- The player-row loop as a filterMap over indexed rows. -/
theorem processPlayerRows_eq_filterMap (rows : List (List PlayerCell)) :
    processPlayerRows rows
      = rows.enum.filterMap (fun p => decodePlayerRow p.1 p.2) := by
  unfold processPlayerRows
  simpa using foldl_push_eq_filterMap (fun p => decodePlayerRow p.1 p.2) rows.enum []

/-- The goalie-row loop as a filterMap over indexed rows. -/
theorem processGoalieRows_eq_filterMap (rows : List (List GoalieCell)) :
    processGoalieRows rows
      = rows.enum.filterMap (fun p => decodeGoalieRow p.1 p.2) := by
  unfold processGoalieRows
  simpa using foldl_push_eq_filterMap (fun p => decodeGoalieRow p.1 p.2) rows.enum []

/-- One standings loop iteration either keeps the accumulator or appends
the decoded record carrying position length + 1. -/
theorem standingsStep_eq_or (teams : List TeamStanding)
    (cells : List StandingsCell) :
    standingsStep teams cells = teams ∨
    standingsStep teams cells
      = teams ++ [decodeStandingsRecord (teams.length + 1) cells] := by
  simp only [standingsStep]
  split_ifs
  · exact Or.inl rfl
  · exact Or.inr rfl
  · exact Or.inl rfl

/-- Appending a record whose position is length + 1 preserves the
positions-are-indices invariant. -/
theorem position_invariant_append (acc : List TeamStanding) (r : TeamStanding)
    (h : ∀ i (hi : i < acc.length), (acc.get ⟨i, hi⟩).position = i + 1)
    (hr : r.position = acc.length + 1) :
    ∀ i (hi : i < (acc ++ [r]).length),
      ((acc ++ [r]).get ⟨i, hi⟩).position = i + 1 := by
  intro i hi
  rcases Nat.lt_or_ge i acc.length with h1 | h2
  · rw [List.get_append i h1]
    exact h i h1
  · have hlen : i < acc.length + 1 := by simpa using hi
    have hieq : i = acc.length := by omega
    subst hieq
    have : (acc ++ [r]).get ⟨acc.length, hi⟩ = r := by
      simp [List.get_eq_getElem]
    rw [this, hr]

/-- The standings loop keeps the positions-are-indices invariant. -/
theorem foldl_standingsStep_position (rows : List (List StandingsCell)) :
    ∀ acc : List TeamStanding,
    (∀ i (hi : i < acc.length), (acc.get ⟨i, hi⟩).position = i + 1) →
    ∀ i (hi : i < (rows.foldl standingsStep acc).length),
      ((rows.foldl standingsStep acc).get ⟨i, hi⟩).position = i + 1 := by
  induction rows with
  | nil => intro acc h; simpa using h
  | cons r rs ih =>
    intro acc h
    rcases standingsStep_eq_or acc r with he | he <;> rw [List.foldl_cons, he]
    · exact ih acc h
    · exact ih _ (position_invariant_append acc _ h rfl)

/-- Positions in a decoded standings list are successive from 1. -/
theorem processStandingsRows_position (rows : List (List StandingsCell)) :
    ∀ i (hi : i < (processStandingsRows rows).length),
      ((processStandingsRows rows).get ⟨i, hi⟩).position = i + 1 :=
  foldl_standingsStep_position rows [] (by intro i hi; simp at hi)

/-- Characterization of the substring test. -/
theorem containsSub_iff (sub : List Char) : ∀ hay : List Char,
    containsSub hay sub = true ↔ ∃ a b, hay = a ++ sub ++ b := by
  intro hay
  induction hay with
  | nil =>
    simp only [containsSub, List.isEmpty_iff]
    constructor
    · intro h
      exact ⟨[], [], by simp [h]⟩
    · rintro ⟨a, b, hab⟩
      rcases List.append_eq_nil.mp (List.append_eq_nil.mp hab.symm).1 with ⟨-, h2⟩
      exact h2
  | cons c t ih =>
    simp only [containsSub, Bool.or_eq_true, List.isPrefixOf_iff_prefix, ih]
    constructor
    · rintro (⟨b, hb⟩ | ⟨a, b, rfl⟩)
      · exact ⟨[], b, by simp [hb]⟩
      · exact ⟨c :: a, b, by simp⟩
    · rintro ⟨a, b, hab⟩
      cases a with
      | nil =>
        left
        exact ⟨b, by simpa using hab.symm⟩
      | cons a0 a' =>
        right
        rw [List.cons_append, List.cons_append] at hab
        injection hab with h1 h2
        exact ⟨a', b, h2⟩

/-- The includes model holds exactly on contiguous occurrences. -/
theorem jsIncludes_iff (s sub : String) :
    jsIncludes s sub = true ↔ ∃ a b, s.toList = a ++ sub.toList ++ b :=
  containsSub_iff sub.toList s.toList

/-! ### Claim theorems -/

/-- C6: in standings name decoding, a cell with a link takes the trimmed
text of the full-name span (class d-sm-inline) inside the link when that
span exists — in particular it wins over any abbreviation span — else the
trimmed link text; a cell without a link takes its whole trimmed text. -/
theorem c6_name_precedence :
    (∀ (full : String) (abbr : Option String) (raw ctext : String),
      teamNameOfCell ⟨some ⟨some full, abbr, raw⟩, ctext⟩ = jsTrim full) ∧
    (∀ (abbr : Option String) (raw ctext : String),
      teamNameOfCell ⟨some ⟨none, abbr, raw⟩, ctext⟩ = jsTrim raw) ∧
    (∀ ctext : String, teamNameOfCell ⟨none, ctext⟩ = jsTrim ctext) ∧
    (∀ (pos : Nat) (cells : List StandingsCell),
      (decodeStandingsRecord pos cells).team = teamNameOfCell (cellS cells 0)) :=
  ⟨fun _ _ _ _ => rfl, fun _ _ _ => rfl, fun _ => rfl, fun _ _ => rfl⟩

/-- C7: a player-stats table is selected exactly when its header row's
lowercased text contains the substrings player, gp and pts; selected
tables contribute exactly their tbody rows; the goalie table selection is
by the leaders class, again drawing rows from tbody regions only. -/
theorem c7_table_selection :
    (∀ tb : PTable, isPlayerStatsTable tb = true ↔
      ((∃ a b, (jsToLower tb.headerText).toList = a ++ "player".toList ++ b) ∧
       (∃ a b, (jsToLower tb.headerText).toList = a ++ "gp".toList ++ b) ∧
       (∃ a b, (jsToLower tb.headerText).toList = a ++ "pts".toList ++ b))) ∧
    (∀ tables : List PTable, scrapeDivisionStatsTables tables =
      (tables.filter isPlayerStatsTable).flatMap
        (fun tb => processPlayerRows tb.tbodyRows)) ∧
    (∀ tables : List GTable, goalieStatsOfTables tables =
      processGoalieRows
        ((tables.filter (fun tb => tb.classes.contains "leaders")).flatMap
          (fun tb => tb.tbodyRows))) := by
  refine ⟨fun tb => ?_, fun tables => ?_, fun tables => ?_⟩
  · simp only [isPlayerStatsTable, Bool.and_eq_true, jsIncludes_iff]
    exact and_assoc
  · unfold scrapeDivisionStatsTables
    simpa using foldl_guard_eq_flatMap isPlayerStatsTable
      (fun tb => processPlayerRows tb.tbodyRows) tables []
  · simp only [goalieStatsOfTables]
    split_ifs with h
    · rfl
    · have hnil : tables.filter (fun tb => tb.classes.contains "leaders") = [] := by
        rcases hx : tables.filter (fun tb => tb.classes.contains "leaders") with _ | ⟨a, l⟩
        · exact hx
        · rw [hx] at h; simp at h
      rw [hnil]
      rfl

/-- C8: the three-row standings table from the specification decodes to
exactly the Stealth record (position 1, pts 15, wpct 0.75) and the Devils
record (position 2, pts 13, wpct 0.65); the all-empty 8-cell row yields no
record. -/
theorem c8_end_to_end :
    processStandingsRows
      [["Stealth", "10", "7", "2", "1", "0", "15", ".750"].map sCell,
       ["Devils", "10", "6", "3", "1", "0", "13", ".650"].map sCell,
       ["", "", "", "", "", "", "", ""].map sCell] =
      [⟨"Stealth", 10, 7, 2, 1, 0, 15, mkRat 3 4, 1⟩,
       ⟨"Devils", 10, 6, 3, 1, 0, 13, mkRat 13 20, 2⟩] ∧
    (mkRat 3 4 : ℚ) = 0.75 ∧ (mkRat 13 20 : ℚ) = 0.65 :=
  ⟨by decide, by norm_num [mkRat, Rat.normalize], by norm_num [mkRat, Rat.normalize]⟩

/-- C9: every snapshot's division mapping has exactly the fixed four
division names as its keys, in order, whatever the fetched documents or
fetch outcomes are. -/
theorem c9_division_keys (tables : List HtmlTable)
    (fetchP : String → FetchOutcome (List PTable))
    (fetchG : String → FetchOutcome (List GTable)) :
    (scrapeStandingsDivisions tables).map Prod.fst = DIVISION_NAMES ∧
    (scrapePlayerStats fetchP).map Prod.fst = DIVISION_NAMES ∧
    (scrapeGoalieStats fetchG).map Prod.fst = DIVISION_NAMES :=
  ⟨rfl, rfl, rfl⟩

/-- C2: a standings table qualifies exactly when one of its tbody rows has
at least 8 cells; the k-th division name receives the decoded rows of the
k-th qualifying table in document order; and when fewer qualifying tables
exist than division names every trailing division receives an empty list
(the scrape is total, so no error is raised). -/
theorem c2_standings_table_selection (tables : List HtmlTable) :
    (∀ tb : HtmlTable,
      hasStandingsData tb = true ↔ ∃ r ∈ tb.tbodyRows, 8 ≤ r.length) ∧
    (∀ (k : Nat) (name : String), DIVISION_NAMES[k]? = some name →
      (scrapeStandingsDivisions tables)[k]? = some (name,
        match (tables.filter hasStandingsData)[k]? with
        | some tb => processStandingsRows tb.tbodyRows
        | none => [])) ∧
    (∀ (k : Nat) (name : String), DIVISION_NAMES[k]? = some name →
      (tables.filter hasStandingsData).length ≤ k →
      (scrapeStandingsDivisions tables)[k]? = some (name, [])) := by
  refine ⟨fun tb => ?_, fun k name hk => ?_, fun k name hk hlen => ?_⟩
  · simp [hasStandingsData, List.any_eq_true]
  · simp only [scrapeStandingsDivisions, List.getElem?_map, List.getElem?_enum, hk,
      Option.map_some']
  · have hnone : (tables.filter hasStandingsData)[k]? = none :=
      List.getElem?_eq_none hlen
    simp only [scrapeStandingsDivisions, List.getElem?_map, List.getElem?_enum, hk,
      Option.map_some', hnone]

/-- C1, counterexample: in the goalie scraper a dropped tbody row still
advances the rank counter, so after a dropped header row the single
decoded record carries rank 2 while its zero-based output index is 0 —
the rank list is not the 1-based index list of the output sequence. -/
theorem c1_counterexample :
    ¬ ((processGoalieRows [headerGoalieRow, smithGoalieRow]).map
        (fun g => g.rank) =
      (List.range
        (processGoalieRows [headerGoalieRow, smithGoalieRow]).length).map
        (fun i => i + 1)) := by decide

/-- C1, amended: in standings decoding the position field equals 1 plus
the record's zero-based index in the filtered output sequence; in player
and goalie decoding the rank field equals 1 plus the row's zero-based
index among the iterated tbody rows (dropped rows included).  In all
three kinds the value is assigned by the decoder, never read from a
source cell. -/
theorem c1_rank_assignment :
    (∀ (rows : List (List StandingsCell)) (i : Nat)
      (hi : i < (processStandingsRows rows).length),
      ((processStandingsRows rows).get ⟨i, hi⟩).position = i + 1) ∧
    (∀ (index : Nat) (cells : List PlayerCell) (p : PlayerStats),
      decodePlayerRow index cells = some p → p.rank = index + 1) ∧
    (∀ (index : Nat) (cells : List GoalieCell) (g : GoalieStats),
      decodeGoalieRow index cells = some g → g.rank = index + 1) := by
  refine ⟨fun rows i hi => processStandingsRows_position rows i hi, ?_, ?_⟩
  · intro index cells p h
    simp only [decodePlayerRow] at h
    split_ifs at h <;> cases h <;> rfl
  · intro index cells g h
    simp only [decodeGoalieRow] at h
    split_ifs at h <;> cases h <;> rfl

/-- C1 witness: the amended rank facts at concrete rows. -/
theorem c1_rank_assignment_witness :
    ((processStandingsRows
        [["Stealth", "10", "7", "2", "1", "0", "15", ".750"].map sCell]).get
      ⟨0, by decide⟩).position = 0 + 1 ∧
    ((decodeGoalieRow 1 smithGoalieRow).getD
      (decodeGoalieRecord 0 [])).rank = 1 + 1 ∧
    ((decodePlayerRow 2 jonesPlayerRow).getD
      (decodePlayerRecord 0 [])).rank = 2 + 1 :=
  ⟨c1_rank_assignment.1 _ 0 (by decide),
   c1_rank_assignment.2.2 1 smithGoalieRow _ (by decide),
   c1_rank_assignment.2.1 2 jonesPlayerRow _ (by decide)⟩

/-- C3: a non-ok response makes the per-division pipeline return an error;
the orchestrators still produce an entry for every division in order, with
an error downgraded to an empty record list for that division only. -/
theorem c3_failure_isolation (fetchG : String → FetchOutcome (List GTable))
    (fetchP : String → FetchOutcome (List PTable)) :
    (∀ (name : String) (status : Nat) (statusText : String),
      fetchG name = .httpError status statusText →
      ∃ e, scrapeDivisionGoalieStats fetchG name = .error e) ∧
    (∀ (name : String) (status : Nat) (statusText : String),
      fetchP name = .httpError status statusText →
      ∃ e, scrapeDivisionStats fetchP name = .error e) ∧
    (scrapeGoalieStats fetchG).map Prod.fst = DIVISION_NAMES ∧
    (scrapePlayerStats fetchP).map Prod.fst = DIVISION_NAMES ∧
    (∀ (k : Nat) (name : String), DIVISION_NAMES[k]? = some name →
      (scrapeGoalieStats fetchG)[k]? = some (name,
        match scrapeDivisionGoalieStats fetchG name with
        | .ok stats => stats
        | .error _ => []) ∧
      (scrapePlayerStats fetchP)[k]? = some (name,
        match scrapeDivisionStats fetchP name with
        | .ok stats => stats
        | .error _ => [])) := by
  refine ⟨?_, ?_, rfl, rfl, ?_⟩
  · intro name status statusText h
    refine ⟨"Failed to fetch goalie stats for " ++ name ++ ": "
      ++ toString status ++ " " ++ statusText, ?_⟩
    simp [scrapeDivisionGoalieStats, h]
  · intro name status statusText h
    refine ⟨"Failed to fetch stats for " ++ name ++ ": "
      ++ toString status ++ " " ++ statusText, ?_⟩
    simp [scrapeDivisionStats, h]
  · intro k name hk
    rcases k with _ | _ | _ | _ | k
    · simp only [DIVISION_NAMES] at hk
      simp only [List.getElem?_cons_zero, Option.some.injEq] at hk
      subst hk
      exact ⟨rfl, rfl⟩
    · simp only [DIVISION_NAMES, List.getElem?_cons_succ,
        List.getElem?_cons_zero, Option.some.injEq] at hk
      subst hk
      exact ⟨rfl, rfl⟩
    · simp only [DIVISION_NAMES, List.getElem?_cons_succ,
        List.getElem?_cons_zero, Option.some.injEq] at hk
      subst hk
      exact ⟨rfl, rfl⟩
    · simp only [DIVISION_NAMES, List.getElem?_cons_succ,
        List.getElem?_cons_zero, Option.some.injEq] at hk
      subst hk
      exact ⟨rfl, rfl⟩
    · simp [DIVISION_NAMES] at hk

/-- C4: every numeric field of every decoded record is obtained by the
trim-parse-default pipeline, so a cell whose trimmed text parses to NaN
(empty or non-numeric) decodes to exactly 0; the decoders are total, so
the field is always present and no error is thrown. -/
theorem c4_numeric_default_zero :
    (∀ s, jsParseInt (jsTrim s) = none → toIntOrZero s = 0) ∧
    (∀ s, jsParseFloat (jsTrim s) = none → toFloatOrZero s = 0) ∧
    (∀ (pos : Nat) (cells : List StandingsCell),
      (jsParseInt (jsTrim (cellTextS cells 1)) = none →
        (decodeStandingsRecord pos cells).gp = 0) ∧
      (jsParseInt (jsTrim (cellTextS cells 2)) = none →
        (decodeStandingsRecord pos cells).w = 0) ∧
      (jsParseInt (jsTrim (cellTextS cells 3)) = none →
        (decodeStandingsRecord pos cells).l = 0) ∧
      (jsParseInt (jsTrim (cellTextS cells 4)) = none →
        (decodeStandingsRecord pos cells).t = 0) ∧
      (jsParseInt (jsTrim (cellTextS cells 5)) = none →
        (decodeStandingsRecord pos cells).otl = 0) ∧
      (jsParseInt (jsTrim (cellTextS cells 6)) = none →
        (decodeStandingsRecord pos cells).pts = 0) ∧
      (jsParseFloat (jsTrim (cellTextS cells 7)) = none →
        (decodeStandingsRecord pos cells).wpct = 0)) ∧
    (∀ (index : Nat) (cells : List PlayerCell),
      (jsParseInt (jsTrim (cellTextP cells 5)) = none →
        (decodePlayerRecord index cells).gp = 0) ∧
      (jsParseInt (jsTrim (cellTextP cells 6)) = none →
        (decodePlayerRecord index cells).goals = 0) ∧
      (jsParseInt (jsTrim (cellTextP cells 7)) = none →
        (decodePlayerRecord index cells).assists = 0) ∧
      (jsParseInt (jsTrim (cellTextP cells 8)) = none →
        (decodePlayerRecord index cells).points = 0) ∧
      (jsParseInt (jsTrim (cellTextP cells 10)) = none →
        (decodePlayerRecord index cells).ppg = 0) ∧
      (jsParseInt (jsTrim (cellTextP cells 11)) = none →
        (decodePlayerRecord index cells).ppa = 0) ∧
      (jsParseInt (jsTrim (cellTextP cells 12)) = none →
        (decodePlayerRecord index cells).shg = 0) ∧
      (jsParseInt (jsTrim (cellTextP cells 13)) = none →
        (decodePlayerRecord index cells).sha = 0) ∧
      (jsParseInt (jsTrim (cellTextP cells 14)) = none →
        (decodePlayerRecord index cells).gwg = 0) ∧
      (jsParseInt (jsTrim (cellTextP cells 15)) = none →
        (decodePlayerRecord index cells).pim = 0) ∧
      (jsParseFloat (jsTrim (cellTextP cells 9)) = none →
        (decodePlayerRecord index cells).pointsPerGame = 0)) ∧
    (∀ (index : Nat) (cells : List GoalieCell),
      (jsParseInt (jsTrim (cellTextG cells 3)) = none →
        (decodeGoalieRecord index cells).gp = 0) ∧
      (jsParseInt (jsTrim (cellTextG cells 4)) = none →
        (decodeGoalieRecord index cells).w = 0) ∧
      (jsParseInt (jsTrim (cellTextG cells 5)) = none →
        (decodeGoalieRecord index cells).l = 0) ∧
      (jsParseInt (jsTrim (cellTextG cells 6)) = none →
        (decodeGoalieRecord index cells).t = 0) ∧
      (jsParseInt (jsTrim (cellTextG cells 7)) = none →
        (decodeGoalieRecord index cells).otl = 0) ∧
      (jsParseInt (jsTrim (cellTextG cells 8)) = none →
        (decodeGoalieRecord index cells).so = 0) ∧
      (jsParseInt (jsTrim (cellTextG cells 9)) = none →
        (decodeGoalieRecord index cells).mp = 0) ∧
      (jsParseInt (jsTrim (cellTextG cells 10)) = none →
        (decodeGoalieRecord index cells).ga = 0) ∧
      (jsParseInt (jsTrim (cellTextG cells 13)) = none →
        (decodeGoalieRecord index cells).sa = 0) ∧
      (jsParseInt (jsTrim (cellTextG cells 14)) = none →
        (decodeGoalieRecord index cells).sv = 0) ∧
      (jsParseInt (jsTrim (cellTextG cells 16)) = none →
        (decodeGoalieRecord index cells).goals = 0) ∧
      (jsParseInt (jsTrim (cellTextG cells 17)) = none →
        (decodeGoalieRecord index cells).assists = 0) ∧
      (jsParseInt (jsTrim (cellTextG cells 18)) = none →
        (decodeGoalieRecord index cells).pim = 0) ∧
      (jsParseFloat (jsTrim (cellTextG cells 11)) = none →
        (decodeGoalieRecord index cells).gaa = 0) ∧
      (jsParseFloat (jsTrim (cellTextG cells 12)) = none →
        (decodeGoalieRecord index cells).gsaa = 0) ∧
      (jsParseFloat (jsTrim (cellTextG cells 15)) = none →
        (decodeGoalieRecord index cells).svPct = 0)) := by
  refine ⟨fun s h => by simp [toIntOrZero, h],
    fun s h => by simp [toFloatOrZero, h],
    fun pos cells => ?_, fun index cells => ?_, fun index cells => ?_⟩
  · exact ⟨fun h => by simp [decodeStandingsRecord, toIntOrZero, toFloatOrZero, h],
     fun h => by simp [decodeStandingsRecord, toIntOrZero, toFloatOrZero, h],
     fun h => by simp [decodeStandingsRecord, toIntOrZero, toFloatOrZero, h],
     fun h => by simp [decodeStandingsRecord, toIntOrZero, toFloatOrZero, h],
     fun h => by simp [decodeStandingsRecord, toIntOrZero, toFloatOrZero, h],
     fun h => by simp [decodeStandingsRecord, toIntOrZero, toFloatOrZero, h],
     fun h => by simp [decodeStandingsRecord, toIntOrZero, toFloatOrZero, h]⟩
  · exact ⟨fun h => by simp [decodePlayerRecord, toIntOrZero, toFloatOrZero, h],
     fun h => by simp [decodePlayerRecord, toIntOrZero, toFloatOrZero, h],
     fun h => by simp [decodePlayerRecord, toIntOrZero, toFloatOrZero, h],
     fun h => by simp [decodePlayerRecord, toIntOrZero, toFloatOrZero, h],
     fun h => by simp [decodePlayerRecord, toIntOrZero, toFloatOrZero, h],
     fun h => by simp [decodePlayerRecord, toIntOrZero, toFloatOrZero, h],
     fun h => by simp [decodePlayerRecord, toIntOrZero, toFloatOrZero, h],
     fun h => by simp [decodePlayerRecord, toIntOrZero, toFloatOrZero, h],
     fun h => by simp [decodePlayerRecord, toIntOrZero, toFloatOrZero, h],
     fun h => by simp [decodePlayerRecord, toIntOrZero, toFloatOrZero, h],
     fun h => by simp [decodePlayerRecord, toIntOrZero, toFloatOrZero, h]⟩
  · exact ⟨fun h => by simp [decodeGoalieRecord, toIntOrZero, toFloatOrZero, h],
     fun h => by simp [decodeGoalieRecord, toIntOrZero, toFloatOrZero, h],
     fun h => by simp [decodeGoalieRecord, toIntOrZero, toFloatOrZero, h],
     fun h => by simp [decodeGoalieRecord, toIntOrZero, toFloatOrZero, h],
     fun h => by simp [decodeGoalieRecord, toIntOrZero, toFloatOrZero, h],
     fun h => by simp [decodeGoalieRecord, toIntOrZero, toFloatOrZero, h],
     fun h => by simp [decodeGoalieRecord, toIntOrZero, toFloatOrZero, h],
     fun h => by simp [decodeGoalieRecord, toIntOrZero, toFloatOrZero, h],
     fun h => by simp [decodeGoalieRecord, toIntOrZero, toFloatOrZero, h],
     fun h => by simp [decodeGoalieRecord, toIntOrZero, toFloatOrZero, h],
     fun h => by simp [decodeGoalieRecord, toIntOrZero, toFloatOrZero, h],
     fun h => by simp [decodeGoalieRecord, toIntOrZero, toFloatOrZero, h],
     fun h => by simp [decodeGoalieRecord, toIntOrZero, toFloatOrZero, h],
     fun h => by simp [decodeGoalieRecord, toIntOrZero, toFloatOrZero, h],
     fun h => by simp [decodeGoalieRecord, toIntOrZero, toFloatOrZero, h],
     fun h => by simp [decodeGoalieRecord, toIntOrZero, toFloatOrZero, h]⟩

/-- C4 witness: zero defaults at concrete non-numeric cell texts. -/
theorem c4_numeric_default_zero_witness :
    toIntOrZero "abc" = 0 ∧ toFloatOrZero "-" = 0 ∧
    (decodeStandingsRecord 1 (["X", "n/a"].map sCell)).gp = 0 :=
  ⟨c4_numeric_default_zero.1 "abc" (by decide),
   c4_numeric_default_zero.2.1 "-" (by decide),
   (c4_numeric_default_zero.2.2.1 1 (["X", "n/a"].map sCell)).1 (by decide)⟩

/-- C5: a row yields no record when its cell count is below the data
kind's minimum (8 for standings, 16 for player and goalie stats), or when
its derived primary name is empty or equals the header label text
case-insensitively (team, player, goalie). -/
theorem c5_row_drop :
    (∀ (teams : List TeamStanding) (cells : List StandingsCell),
      cells.length < 8 → standingsStep teams cells = teams) ∧
    (∀ (teams : List TeamStanding) (cells : List StandingsCell),
      teamNameOfCell (cellS cells 0) = "" ∨
        jsToLower (teamNameOfCell (cellS cells 0)) = "team" →
      standingsStep teams cells = teams) ∧
    (∀ (index : Nat) (cells : List PlayerCell),
      cells.length < 16 → decodePlayerRow index cells = none) ∧
    (∀ (index : Nat) (cells : List PlayerCell),
      playerNameOfCells cells = "" ∨
        jsToLower (playerNameOfCells cells) = "player" →
      decodePlayerRow index cells = none) ∧
    (∀ (index : Nat) (cells : List GoalieCell),
      cells.length < 16 → decodeGoalieRow index cells = none) ∧
    (∀ (index : Nat) (cells : List GoalieCell),
      goalieNameOfCells cells = "" ∨
        jsToLower (goalieNameOfCells cells) = "goalie" →
      decodeGoalieRow index cells = none) := by
  refine ⟨fun teams cells h => ?_, fun teams cells h => ?_,
    fun index cells h => ?_, fun index cells h => ?_,
    fun index cells h => ?_, fun index cells h => ?_⟩
  · simp only [standingsStep]
    rw [if_neg (by omega)]
  · simp only [standingsStep]
    split_ifs <;> rfl
  · simp only [decodePlayerRow]
    rw [if_neg (by omega)]
  · simp only [decodePlayerRow]
    split_ifs with h1 h2
    · rfl
    · exact absurd (by tauto) h2
    · rfl
  · simp only [decodeGoalieRow]
    rw [if_neg (by omega)]
  · simp only [decodeGoalieRow]
    split_ifs with h1 h2
    · rfl
    · exact absurd (by tauto) h2
    · rfl

/-- C5 witness: concrete dropped rows of each kind. -/
theorem c5_row_drop_witness :
    standingsStep [] (["Too", "short"].map sCell) = [] ∧
    standingsStep [] (["Team", "1", "2", "3", "4", "5", "6", "7"].map sCell)
      = [] ∧
    decodeGoalieRow 0 headerGoalieRow = none ∧
    decodePlayerRow 0 (List.replicate 15 (pCell "x")) = none :=
  ⟨c5_row_drop.1 [] _ (by decide),
   c5_row_drop.2.1 [] _ (Or.inr (by decide)),
   c5_row_drop.2.2.2.2.2 0 headerGoalieRow (Or.inr (by decide)),
   c5_row_drop.2.2.1 0 _ (by decide)⟩

/-- C2 witness: with two qualifying tables the third and fourth divisions
decode to empty lists. -/
theorem c2_standings_table_selection_witness :
    (scrapeStandingsDivisions exStandingsTables)[2]?
      = some ("3-STEVENS NORTH", []) ∧
    (scrapeStandingsDivisions exStandingsTables)[3]?
      = some ("3-STEVENS SOUTH", []) :=
  ⟨(c2_standings_table_selection exStandingsTables).2.2 2 "3-STEVENS NORTH"
      (by rfl) (by decide),
   (c2_standings_table_selection exStandingsTables).2.2 3 "3-STEVENS SOUTH"
      (by rfl) (by decide)⟩

/-- C3 witness: a failing division is downgraded to an empty list while
the snapshot still carries all four divisions. -/
theorem c3_failure_isolation_witness :
    (∃ e, scrapeDivisionGoalieStats exFetchG "2-MANNO" = Except.error e) ∧
    (scrapeGoalieStats exFetchG).map Prod.fst = DIVISION_NAMES ∧
    (scrapeGoalieStats exFetchG)[1]? = some ("2-MANNO", []) ∧
    (scrapePlayerStats exFetchP)[3]? = some ("3-STEVENS SOUTH", []) := by
  obtain ⟨h1, h2, h3, h4, h5⟩ := c3_failure_isolation exFetchG exFetchP
  refine ⟨h1 "2-MANNO" 500 "Internal Server Error" (by rfl), h3, ?_, ?_⟩
  · have h := (h5 1 "2-MANNO" (by rfl)).1
    simpa [scrapeDivisionGoalieStats, exFetchG] using h
  · have h := (h5 3 "3-STEVENS SOUTH" (by rfl)).2
    simpa [scrapeDivisionStats, exFetchP] using h

/-- A decimal digit is not whitespace. -/
theorem isWhitespace_eq_false_of_isDigit (c : Char) (h : c.isDigit = true) :
    c.isWhitespace = false := by
  cases hw : c.isWhitespace
  · rfl
  · exfalso
    simp only [Char.isWhitespace, Bool.or_eq_true, decide_eq_true_eq] at hw
    rcases hw with ((h1 | h1) | h1) | h1 <;> subst h1 <;>
      exact absurd h (by decide)

/-- takeWhile isDigit consumes exactly a digit block followed by a
non-digit boundary. -/
theorem takeWhile_digits_append (ds rest : List Char)
    (hd : ∀ c ∈ ds, c.isDigit = true)
    (hr : ∀ c, rest.head? = some c → c.isDigit = false) :
    (ds ++ rest).takeWhile Char.isDigit = ds := by
  induction ds with
  | nil =>
    cases rest with
    | nil => rfl
    | cons r rs => simp [List.takeWhile_cons, hr r rfl]
  | cons d ds' ih =>
    have hdd : d.isDigit = true := hd d (by simp)
    simp [List.takeWhile_cons, hdd, ih (fun c hc => hd c (by simp [hc]))]

/-- On a digit block followed by a non-digit tail, parseInt returns the
value of the digit block. -/
theorem jsParseInt_digits (ds rest : List Char) (hne : ds ≠ [])
    (hd : ∀ c ∈ ds, c.isDigit = true)
    (hr : ∀ c, rest.head? = some c → c.isDigit = false) :
    jsParseInt (String.mk (ds ++ rest)) = some (Int.ofNat (digitsVal ds)) := by
  rcases ds with _ | ⟨d, ds'⟩
  · exact absurd rfl hne
  have hdd : d.isDigit = true := hd d (by simp)
  have hdw : d.isWhitespace = false := isWhitespace_eq_false_of_isDigit d hdd
  have htl : (String.mk ((d :: ds') ++ rest)).toList = d :: (ds' ++ rest) := rfl
  simp only [jsParseInt, htl, List.dropWhile_cons, hdw, Bool.false_eq_true,
    if_false]
  split
  · next r heq =>
    injection heq with heq1 heq2
    subst heq1
    exact absurd hdd (by decide)
  · next r heq =>
    injection heq with heq1 heq2
    subst heq1
    exact absurd hdd (by decide)
  · simp only [leadingNat, ← List.cons_append,
      takeWhile_digits_append (d :: ds') rest hd hr]
    simp

/-- C10: an integer cell whose trimmed text starts with a base-10 digit
block (possibly followed by non-numeric characters) decodes to the value
of that leading block, not to 0; the zero default applies exactly when no
leading integer parses at all. -/
theorem c10_leading_integer :
    (∀ (ds rest : List Char), ds ≠ [] →
      (∀ c ∈ ds, c.isDigit = true) →
      (∀ c, rest.head? = some c → c.isDigit = false) →
      jsTrim (String.mk (ds ++ rest)) = String.mk (ds ++ rest) →
      toIntOrZero (String.mk (ds ++ rest)) = Int.ofNat (digitsVal ds)) ∧
    (∀ s, jsParseInt (jsTrim s) = none → toIntOrZero s = 0) ∧
    jsParseInt "12abc" = some 12 ∧
    (decodeStandingsRecord 1
      (["T", "12abc", "3", "4", "5", "6", "7", ".8"].map sCell)).gp = 12 := by
  refine ⟨fun ds rest hne hd hr htrim => ?_, fun s h => by simp [toIntOrZero, h],
    by decide, by decide⟩
  unfold toIntOrZero
  rw [htrim, jsParseInt_digits ds rest hne hd hr]
  rfl

/-- C10 witness: the leading-digits fact applied to the cell text 12abc. -/
theorem c10_leading_integer_witness :
    toIntOrZero (String.mk (['1', '2'] ++ ['a', 'b', 'c'])) =
      Int.ofNat (digitsVal ['1', '2']) :=
  c10_leading_integer.1 ['1', '2'] ['a', 'b', 'c'] (by decide) (by decide)
    (by intro c hc; cases hc; decide) (by decide)
